import Mathlib

/-!
Verification development for the pad-checker repository.

The development shallowly embeds the two source files
(`src/pad_checker/services/pad_service.py` and `src/pad_checker/main.py`).
Tabular records from the external analytics source are modelled as
association lists of column name to `Value`; Python exceptions are modelled
with `Except PyErr`; the `try/except` wrappers of the service operations are
the `catchAll` combinator.  Python floats are modelled as rationals (NaN is
collapsed into `Value.null`, which also stands for Python `None`, exactly the
set of values `pd.notna` rejects); `str.lower` is modelled on ASCII letters.
-/

namespace PadChecker

/-- Python exception kinds that the embedded code can raise. -/
inductive PyErr where
  | valueError
  | typeError
  | attributeError
  | keyError
  | indexError
  | jsonDecodeError
  | external (msg : String)
deriving DecidableEq, Repr

/-- A cell value of a tabular record.  `null` stands for both Python `None`
and float NaN (the values `pd.notna` rejects). -/
inductive Value where
  | str (s : String)
  | int (n : Int)
  | float (q : ℚ)
  | bool (b : Bool)
  | null
deriving DecidableEq, Repr

/-- Rank used to order values of distinct constructors totally. -/
def Value.rank : Value → Nat
  | .null => 0
  | .bool _ => 1
  | .int _ => 2
  | .float _ => 3
  | .str _ => 4

/-- Python truthiness (`bool(v)`) on embedded values. -/
def pyFalsy : Value → Bool
  | .str s => s == ""
  | .int n => n == 0
  | .float q => q == 0
  | .bool b => !b
  | .null => true

/-- `Value.isStr v` holds when `v` is a string cell. -/
def Value.isStr : Value → Bool
  | .str _ => true
  | _ => false

/-- Python `str(v)`.  Float rendering is modelled up to the decimal notation
(no claim inspects the rendered text of a float). -/
def pyStr : Value → String
  | .str s => s
  | .int n => toString n
  | .float q => toString q
  | .bool b => if b then "True" else "False"
  | .null => "None"

/-- The ASCII whitespace characters stripped by `str.strip()` (Python also
strips the rarer Unicode whitespace; no claim involves those). -/
def pyWs (c : Char) : Bool :=
  c == ' ' || c == '\t' || c == '\n' || c == '\r' || c == Char.ofNat 11 || c == Char.ofNat 12

def pyStripChars (cs : List Char) : List Char :=
  ((cs.dropWhile pyWs).reverse.dropWhile pyWs).reverse

/-- Python `str.strip()` (whitespace on both ends). -/
def pyStrip (s : String) : String := String.mk (pyStripChars s.data)

def digitsToNat (ds : List Char) : Nat :=
  ds.foldl (fun acc d => acc * 10 + (d.toNat - 48)) 0

/-- Python `int(s)` on a string: optional surrounding whitespace, optional
sign, then decimal digits; anything else raises `ValueError`. -/
def pyIntOfString (s : String) : Except PyErr Int :=
  let cs := pyStripChars s.data
  let sd : Bool × List Char :=
    match cs with
    | '-' :: rest => (true, rest)
    | '+' :: rest => (false, rest)
    | _ => (false, cs)
  if sd.2 ≠ [] ∧ sd.2.all Char.isDigit then
    .ok (if sd.1 then -(digitsToNat sd.2 : Int) else (digitsToNat sd.2 : Int))
  else .error .valueError

/-- Truncation of a rational toward zero, as Python `int(float)`. -/
def ratTrunc (q : ℚ) : Int := q.num.tdiv (q.den : Int)

/-- Python `int(v)`. -/
def pyInt : Value → Except PyErr Int
  | .int n => .ok n
  | .bool b => .ok (if b then 1 else 0)
  | .float q => .ok (ratTrunc q)
  | .str s => pyIntOfString s
  | .null => .error .typeError

/-- Python `str.lower()`, modelled on ASCII letters. -/
def pyLower (s : String) : String := String.mk (s.data.map Char.toLower)

/-- Python `str.startswith(pre)`. -/
def pyStartswith (s pre : String) : Bool := pre.data.isPrefixOf s.data

/-- Python slicing `s[n:]` (strings are sequences of code points). -/
def pyDrop (s : String) (n : Nat) : String := String.mk (s.data.drop n)

/-- Python `s.replace("Z", "+00:00")`: every occurrence is replaced. -/
def pyReplaceZ (s : String) : String :=
  String.mk (s.data.foldr
    (fun c acc => if c == 'Z' then '+' :: '0' :: '0' :: ':' :: '0' :: '0' :: acc else c :: acc)
    [])

/-! ## JSON model (Python `json.loads` on the subset the notes field uses) -/

/-- A JSON document.  A number is kept as mantissa and decimal scale (the
value is `m / 10 ^ s`); Python `json` distinguishes int from float, but
nothing in the embedded code inspects a number beyond storing it and
testing falsiness. -/
inductive Json where
  | null
  | bool (b : Bool)
  | num (m : Int) (s : Nat)
  | str (s : String)
  | arr (xs : List Json)
  | obj (kvs : List (String × Json))

def jsonWs (c : Char) : Bool := c == ' ' || c == '\t' || c == '\n' || c == '\r'

def skipWs (cs : List Char) : List Char := cs.dropWhile jsonWs

def lbrace : Char := Char.ofNat 123

def rbrace : Char := Char.ofNat 125

def hexVal (c : Char) : Option Nat :=
  if '0' ≤ c ∧ c ≤ '9' then some (c.toNat - 48)
  else if 'a' ≤ c ∧ c ≤ 'f' then some (c.toNat - 87)
  else if 'A' ≤ c ∧ c ≤ 'F' then some (c.toNat - 55)
  else none

/-- Parse the body of a JSON string literal (the opening quote already
consumed); returns the decoded characters and the input after the closing
quote.  Fuel-indexed so the function reduces structurally. -/
def pStringCharsF : Nat → List Char → Option (List Char × List Char)
  | 0, _ => none
  | _, [] => none
  | fuel + 1, c :: cs =>
    if c == '"' then some ([], cs)
    else if c == '\\' then
      match cs with
      | [] => none
      | e :: cs' =>
        if e == 'u' then
          match cs' with
          | h1 :: h2 :: h3 :: h4 :: cs'' =>
            match hexVal h1, hexVal h2, hexVal h3, hexVal h4 with
            | some a, some b, some c2, some d =>
              (pStringCharsF fuel cs'').map
                (fun p => (Char.ofNat (((a * 16 + b) * 16 + c2) * 16 + d) :: p.1, p.2))
            | _, _, _, _ => none
          | _ => none
        else
          match
            (if e == '"' then some '"'
             else if e == '\\' then some '\\'
             else if e == '/' then some '/'
             else if e == 'n' then some '\n'
             else if e == 't' then some '\t'
             else if e == 'r' then some '\r'
             else if e == 'b' then some (Char.ofNat 8)
             else if e == 'f' then some (Char.ofNat 12)
             else none : Option Char) with
          | some ch => (pStringCharsF fuel cs').map (fun p => (ch :: p.1, p.2))
          | none => none
    else (pStringCharsF fuel cs).map (fun p => (c :: p.1, p.2))

/-- `pStringCharsF` with enough fuel for its input. -/
def pStringChars (cs : List Char) : Option (List Char × List Char) :=
  pStringCharsF (cs.length + 1) cs

/-- Parse a JSON number (sign, digits, optional fraction, optional exponent). -/
def pNum (cs : List Char) : Option (Json × List Char) :=
  let sn : Bool × List Char :=
    match cs with
    | '-' :: rest => (true, rest)
    | _ => (false, cs)
  let ds := sn.2.takeWhile Char.isDigit
  if ds.isEmpty then none
  else
    let cs2 := sn.2.drop ds.length
    let frac : Option (List Char × List Char) :=
      match cs2 with
      | '.' :: rest =>
        let f := rest.takeWhile Char.isDigit
        if f.isEmpty then none else some (f, rest.drop f.length)
      | _ => some ([], cs2)
    match frac with
    | none => none
    | some (fds, cs3) =>
      let expo : Option (Int × List Char) :=
        match cs3 with
        | e :: rest =>
          if e == 'e' || e == 'E' then
            let se : Bool × List Char :=
              match rest with
              | '-' :: r2 => (true, r2)
              | '+' :: r2 => (false, r2)
              | _ => (false, rest)
            let eds := se.2.takeWhile Char.isDigit
            if eds.isEmpty then none
            else some (if se.1 then -(digitsToNat eds : Int) else (digitsToNat eds : Int),
                       se.2.drop eds.length)
          else some (0, cs3)
        | [] => some (0, cs3)
      match expo with
      | none => none
      | some (ex, cs4) =>
        let mant : Int := ((digitsToNat ds * 10 ^ fds.length + digitsToNat fds : Nat) : Int)
        let m : Int := if sn.1 then -mant else mant
        if 0 ≤ ex then some (.num (m * ((10 ^ ex.toNat : Nat) : Int)) fds.length, cs4)
        else some (.num m (fds.length + (-ex).toNat), cs4)

mutual

/-- Fuel-indexed JSON value parser. -/
def pVal : Nat → List Char → Option (Json × List Char)
  | 0, _ => none
  | fuel + 1, cs =>
    match skipWs cs with
    | [] => none
    | c :: rest =>
      if c == lbrace then
        match skipWs rest with
        | c2 :: rest2 =>
          if c2 == rbrace then some (.obj [], rest2)
          else (pMembers fuel (skipWs rest)).map (fun p => (Json.obj p.1, p.2))
        | [] => none
      else if c == '[' then
        match skipWs rest with
        | c2 :: rest2 =>
          if c2 == ']' then some (.arr [], rest2)
          else (pItems fuel (skipWs rest)).map (fun p => (Json.arr p.1, p.2))
        | [] => none
      else if c == '"' then
        (pStringChars rest).map (fun p => (Json.str (String.mk p.1), p.2))
      else if c == 't' then
        if rest.take 3 = ['r', 'u', 'e'] then some (.bool true, rest.drop 3) else none
      else if c == 'f' then
        if rest.take 4 = ['a', 'l', 's', 'e'] then some (.bool false, rest.drop 4) else none
      else if c == 'n' then
        if rest.take 3 = ['u', 'l', 'l'] then some (.null, rest.drop 3) else none
      else pNum (c :: rest)

/-- Parse one or more `"key": value` members followed by a closing brace;
returns the member list (later duplicates kept in order, as Python's dict
keeps the last binding). -/
def pMembers : Nat → List Char → Option (List (String × Json) × List Char)
  | 0, _ => none
  | fuel + 1, cs =>
    match skipWs cs with
    | c :: rest =>
      if c == '"' then
        match pStringChars rest with
        | none => none
        | some (key, rest2) =>
          match skipWs rest2 with
          | ':' :: rest3 =>
            match pVal fuel rest3 with
            | none => none
            | some (v, rest4) =>
              match skipWs rest4 with
              | ',' :: rest5 =>
                (pMembers fuel rest5).map
                  (fun p => ((String.mk key, v) :: p.1, p.2))
              | c2 :: rest5 =>
                if c2 == rbrace then some ([(String.mk key, v)], rest5) else none
              | [] => none
          | _ => none
      else none
    | [] => none

/-- Parse one or more array items followed by a closing bracket. -/
def pItems : Nat → List Char → Option (List Json × List Char)
  | 0, _ => none
  | fuel + 1, cs =>
    match pVal fuel cs with
    | none => none
    | some (v, rest) =>
      match skipWs rest with
      | ',' :: rest2 => (pItems fuel rest2).map (fun p => (v :: p.1, p.2))
      | ']' :: rest2 => some ([v], rest2)
      | _ => none

end

/-- Python `json.loads`: parse a complete document, rejecting trailing
garbage.  The modelled grammar is standard JSON; Python's non-standard
`NaN`/`Infinity` literals and a few integer-lexeme corner cases (leading
zeros) differ, none of which a claim exercises. -/
def jsonLoads (s : String) : Except PyErr Json :=
  match pVal (2 * s.data.length + 8) s.data with
  | some (j, rest) => if (skipWs rest).isEmpty then .ok j else .error .jsonDecodeError
  | none => .error .jsonDecodeError

/-! ## Notes parsing (`PADService._parse_notes`) -/

/-- Python falsiness of a JSON value (`v or None`). -/
def jfalsy : Json → Bool
  | .null => true
  | .bool b => !b
  | .num m _ => m == 0
  | .str s => s == ""
  | .arr xs => xs.isEmpty
  | .obj kvs => kvs.isEmpty

/-- Python `dict.get k`: the last binding of `k` wins; a stored JSON `null`
is Python `None`, indistinguishable from an absent key. -/
def pyGet (kvs : List (String × Json)) (k : String) : Option Json :=
  match kvs.foldl (fun acc p => if p.1 == k then some p.2 else acc) none with
  | some Json.null => none
  | r => r

/-- Python `dict.get k or None`. -/
def pyGetOrNone (kvs : List (String × Json)) (k : String) : Option Json :=
  match pyGet kvs k with
  | some v => if jfalsy v then none else some v
  | none => none

/-- Mirror of the `NotesInfo` dataclass.  The dataclass annotations are not
enforced by Python, so each structured field holds whatever JSON value
`dict.get` produced; `raw` holds whatever value was in the notes column. -/
structure NotesInfo where
  phone_id : Option Json
  user : Option Json
  app_type : Option Json
  build : Option Json
  neural_net : Option Json
  predicted_drug : Option Json
  prediction_score : Option Json
  safe_status : Option Json
  quantity_nn : Option Json
  quantity_pls : Option Json
  pls_used : Option Json
  notes_text : Option Json
  raw : Option Value

/-- `NotesInfo` with every field unset. -/
def emptyNotes : NotesInfo :=
  ⟨none, none, none, none, none, none, none, none, none, none, none, none, none⟩

/-- `PADService._parse_notes`.  A falsy notes value yields `None`; a string
is JSON-decoded (decode failure caught, yielding a raw-only record; decoding
to a non-dict raises `AttributeError` at `data.get`, which the method does
not catch); a truthy non-string raises `TypeError` inside `json.loads`,
which is caught, yielding a raw-only record. -/
def parse_notes : Option Value → Except PyErr (Option NotesInfo)
  | none => .ok none
  | some v =>
    if pyFalsy v then .ok none
    else
      match v with
      | .str s =>
        match jsonLoads s with
        | .ok (.obj kvs) =>
          .ok (some ⟨pyGet kvs "Phone ID", pyGetOrNone kvs "User", pyGet kvs "App type",
            pyGet kvs "Build", pyGet kvs "Neural net", pyGet kvs "Predicted drug",
            pyGet kvs "Prediction score", pyGet kvs "Safe", pyGet kvs "Quantity NN",
            pyGet kvs "Quantity PLS", pyGet kvs "PLS used", pyGetOrNone kvs "Notes", none⟩)
        | .ok _ => .error .attributeError
        | .error _ => .ok (some { emptyNotes with raw := some (.str s) })
      | other => .ok (some { emptyNotes with raw := some other })

/-- The recognized notes keys, in the order the constructor reads them. -/
def notesKeys : List String :=
  ["Phone ID", "User", "App type", "Build", "Neural net", "Predicted drug",
   "Prediction score", "Safe", "Quantity NN", "Quantity PLS", "PLS used", "Notes"]

/-- Every structured field of the record is set. -/
def notesAllSet (ni : NotesInfo) : Bool :=
  ni.phone_id.isSome && ni.user.isSome && ni.app_type.isSome && ni.build.isSome &&
  ni.neural_net.isSome && ni.predicted_drug.isSome && ni.prediction_score.isSome &&
  ni.safe_status.isSome && ni.quantity_nn.isSome && ni.quantity_pls.isSome &&
  ni.pls_used.isSome && ni.notes_text.isSome

/-- Every structured field of the record is unset. -/
def notesAllUnset (ni : NotesInfo) : Bool :=
  ni.phone_id.isNone && ni.user.isNone && ni.app_type.isNone && ni.build.isNone &&
  ni.neural_net.isNone && ni.predicted_drug.isNone && ni.prediction_score.isNone &&
  ni.safe_status.isNone && ni.quantity_nn.isNone && ni.quantity_pls.isNone &&
  ni.pls_used.isNone && ni.notes_text.isNone

/-! ## Timestamp formatting (`PADService._format_datetime`) -/

/-- The fields of a parsed datetime that `strftime` renders. -/
structure PyDateTime where
  year : Nat
  month : Nat
  day : Nat
  hour : Nat
  minute : Nat
  second : Nat
deriving DecidableEq, Repr

/-- Two decimal digits. -/
def d2 (a b : Char) : Option Nat :=
  if a.isDigit && b.isDigit then some ((a.toNat - 48) * 10 + (b.toNat - 48)) else none

def isLeap (y : Nat) : Bool := y % 4 == 0 && (y % 100 != 0 || y % 400 == 0)

def daysInMonth (y m : Nat) : Nat :=
  if m == 2 then (if isLeap y then 29 else 28)
  else if m == 4 || m == 6 || m == 9 || m == 11 then 30
  else 31

/-- A valid trailing UTC-offset suffix (`±HH:MM` or `±HH:MM:SS`), or no
suffix at all. -/
def tzOk : List Char → Bool
  | [] => true
  | sgn :: rest =>
    (sgn == '+' || sgn == '-') &&
      (match rest with
       | [h1, h2, ':', m1, m2] =>
         (match d2 h1 h2, d2 m1 m2 with
          | some hh, some mm => hh ≤ 23 && mm ≤ 59
          | _, _ => false)
       | [h1, h2, ':', m1, m2, ':', s1, s2] =>
         (match d2 h1 h2, d2 m1 m2, d2 s1 s2 with
          | some hh, some mm, some ss => hh ≤ 23 && mm ≤ 59 && ss ≤ 59
          | _, _, _ => false)
       | _ => false)

/-- Parse the time-of-day part `HH[:MM[:SS[.f{1,6}]]]` followed by an
optional UTC offset, as `datetime.fromisoformat` accepts it. -/
def pTime (cs : List Char) : Option (Nat × Nat × Nat) :=
  match cs with
  | h1 :: h2 :: rest =>
    match d2 h1 h2 with
    | some hh =>
      if 24 ≤ hh then none
      else
        match rest with
        | ':' :: m1 :: m2 :: rest2 =>
          match d2 m1 m2 with
          | some mm =>
            if 60 ≤ mm then none
            else
              match rest2 with
              | ':' :: s1 :: s2 :: rest3 =>
                match d2 s1 s2 with
                | some ss =>
                  if 60 ≤ ss then none
                  else
                    match rest3 with
                    | '.' :: rest4 =>
                      let ds := rest4.takeWhile Char.isDigit
                      if 1 ≤ ds.length && ds.length ≤ 6 && tzOk (rest4.drop ds.length)
                      then some (hh, mm, ss) else none
                    | _ => if tzOk rest3 then some (hh, mm, ss) else none
                | none => none
              | _ => if tzOk rest2 then some (hh, mm, 0) else none
          | none => none
        | _ => if tzOk rest then some (hh, 0, 0) else none
    | none => none
  | _ => none

/-- All four year characters are digits and the date fields are in range. -/
def mkDate (y1 y2 y3 y4 m1 m2 dd1 dd2 : Char) : Option (Nat × Nat × Nat) :=
  if y1.isDigit && y2.isDigit && y3.isDigit && y4.isDigit then
    let y := digitsToNat [y1, y2, y3, y4]
    match d2 m1 m2, d2 dd1 dd2 with
    | some m, some d =>
      if 1 ≤ y ∧ 1 ≤ m ∧ m ≤ 12 ∧ 1 ≤ d ∧ d ≤ daysInMonth y m then some (y, m, d) else none
    | _, _ => none
  else none

/-- `datetime.fromisoformat`: ten-character `YYYY-MM-DD` date, then
optionally any single separator character and a time-of-day with optional
UTC offset.  The offset is validated but does not shift the stored fields
(the code renders without `%z`). -/
def fromisoformat (s : String) : Option PyDateTime :=
  match s.data with
  | [y1, y2, y3, y4, '-', m1, m2, '-', dd1, dd2] =>
    (mkDate y1 y2 y3 y4 m1 m2 dd1 dd2).map (fun p => ⟨p.1, p.2.1, p.2.2, 0, 0, 0⟩)
  | y1 :: y2 :: y3 :: y4 :: '-' :: m1 :: m2 :: '-' :: dd1 :: dd2 :: _sep :: rest =>
    match mkDate y1 y2 y3 y4 m1 m2 dd1 dd2 with
    | some p => (pTime rest).map (fun t => ⟨p.1, p.2.1, p.2.2, t.1, t.2.1, t.2.2⟩)
    | none => none
  | _ => none

def pad2 (n : Nat) : String := if n < 10 then "0" ++ toString n else toString n

def pad4 (n : Nat) : String :=
  if n < 10 then "000" ++ toString n
  else if n < 100 then "00" ++ toString n
  else if n < 1000 then "0" ++ toString n
  else toString n

/-- `dt.strftime("%d/%m/%Y %I:%M %p")`. -/
def renderDt (dt : PyDateTime) : String :=
  let h12 := if dt.hour % 12 == 0 then 12 else dt.hour % 12
  pad2 dt.day ++ "/" ++ pad2 dt.month ++ "/" ++ pad4 dt.year ++ " " ++
    pad2 h12 ++ ":" ++ pad2 dt.minute ++ " " ++ (if dt.hour < 12 then "AM" else "PM")

/-- `PADService._format_datetime`.  A falsy value yields `""`; a non-string
truthy value raises `AttributeError` at `.replace`, which the method catches
(returning `str(value)`); a string has every `"Z"` replaced by `"+00:00"`
and is then parsed, falling back to the original string on failure. -/
def format_datetime (v : Value) : String :=
  if pyFalsy v then ""
  else
    match v with
    | .str s =>
      match fromisoformat (pyReplaceZ s) with
      | some dt => renderDt dt
      | none => s
    | other => pyStr other

/-! ## Image path conversion (`PADService._convert_image_path_to_url`) -/

def PAD_BASE_URL : String := "https://pad.crc.nd.edu"

/-- `PADService._convert_image_path_to_url`.  A falsy value yields `None`; a
truthy non-string raises `AttributeError` at `.startswith` (not caught). -/
def convert_image_path_to_url : Option Value → Except PyErr (Option String)
  | none => .ok none
  | some v =>
    if pyFalsy v then .ok none
    else
      match v with
      | .str path =>
        let p1 := if pyStartswith path "/var/www/html" then
            pyDrop path ("/var/www/html".data.length) else path
        let p2 := if pyStartswith p1 "/" then p1 else "/" ++ p1
        .ok (some (PAD_BASE_URL ++ p2))
      | _ => .error .attributeError

/-! ## Tabular records -/

/-- A row of a tabular result: column name to cell value.  A column that is
absent from the association list is absent from the row's index. -/
abbrev Row := List (String × Value)

/-- A pandas DataFrame: the column index and the rows. -/
structure DataFrame where
  cols : List String
  rows : List Row
deriving DecidableEq, Repr

/-- `PADService._find_column`: first candidate present in the column index. -/
def find_column (df : DataFrame) (cands : List String) : Option String :=
  cands.find? (fun c => df.cols.contains c)

/-- `PADService._safe_get` with default `None`: first candidate present in
the row whose value is non-null (`pd.notna`). -/
def safe_get (row : Row) : List String → Option Value
  | [] => none
  | c :: cs =>
    match List.lookup c row with
    | some v => if v == .null then safe_get row cs else some v
    | none => safe_get row cs

/-- Lexicographic comparison of strings by code point, as Python compares
strings. -/
def strLeb : List Char → List Char → Bool
  | [], _ => true
  | _ :: _, [] => false
  | a :: as, b :: bs =>
    if a.toNat < b.toNat then true
    else if b.toNat < a.toNat then false
    else strLeb as bs

theorem strLeb_total : ∀ as bs : List Char, strLeb as bs = true ∨ strLeb bs as = true := by
  intro as
  induction as with
  | nil => intro bs; left; cases bs <;> rfl
  | cons a as ih =>
    intro bs
    cases bs with
    | nil => right; rfl
    | cons b bs =>
      by_cases h1 : a.toNat < b.toNat
      · left; simp [strLeb, h1]
      · by_cases h2 : b.toNat < a.toNat
        · right; simp [strLeb, h2]
        · have heq1 : ¬ b.toNat < a.toNat := h2
          rcases ih bs with h | h
          · left; simp [strLeb, h1, h2, h]
          · right; simp [strLeb, h1, h2, h]

theorem strLeb_trans :
    ∀ as bs cs : List Char, strLeb as bs = true → strLeb bs cs = true → strLeb as cs = true := by
  intro as
  induction as with
  | nil => intro bs cs _ _; cases cs <;> rfl
  | cons a as ih =>
    intro bs cs hab hbc
    cases bs with
    | nil => simp [strLeb] at hab
    | cons b bs =>
      cases cs with
      | nil => simp [strLeb] at hbc
      | cons c cs =>
        simp only [strLeb] at hab hbc ⊢
        by_cases h1 : a.toNat < b.toNat
        · by_cases h2 : b.toNat < c.toNat
          · simp [show a.toNat < c.toNat by omega]
          · by_cases h2' : c.toNat < b.toNat
            · simp [h2, h2'] at hbc
            · simp [show a.toNat < c.toNat by omega]
        · by_cases h1' : b.toNat < a.toNat
          · simp [h1, h1'] at hab
          · by_cases h2 : b.toNat < c.toNat
            · simp [show a.toNat < c.toNat by omega]
            · by_cases h2' : c.toNat < b.toNat
              · simp [h2, h2'] at hbc
              · simp [h1, h1'] at hab
                simp [h2, h2'] at hbc
                simp [show ¬ a.toNat < c.toNat by omega, show ¬ c.toNat < a.toNat by omega]
                exact ih bs cs hab hbc

/-- Total order used to model `sort_values` comparisons.  Values of the same
kind compare by their order (`False < True`, numeric, lexicographic); `null`
is least, so a descending sort puts missing dates last, as pandas places
NaN.  The service theorems only rely on this order on string-valued date
columns, where it agrees with pandas. -/
def valLE : Value → Value → Bool
  | .null, .null => true
  | .bool x, .bool y => !x || y
  | .int x, .int y => decide (x ≤ y)
  | .float x, .float y => decide (x ≤ y)
  | .str x, .str y => strLeb x.data y.data
  | a, b => decide (a.rank ≤ b.rank)

/-- Insert into a descending-sorted list. -/
def insertDesc {α : Type _} (le : α → α → Bool) (x : α) : List α → List α
  | [] => [x]
  | y :: ys => if le y x then x :: y :: ys else y :: insertDesc le x ys

/-- Insertion sort, descending. -/
def sortDesc {α : Type _} (le : α → α → Bool) : List α → List α
  | [] => []
  | x :: xs => insertDesc le x (sortDesc le xs)

/-- The sort key a row contributes for column `dc` (missing cell = NaN). -/
def rowKey (dc : String) (r : Row) : Value := (List.lookup dc r).getD .null

/-- `df.sort_values(by=dc, ascending=False)`. -/
def sort_values_desc (rows : List Row) (dc : String) : List Row :=
  sortDesc (fun a b => valLE (rowKey dc a) (rowKey dc b)) rows

/-- `df.head(n)`: the first `n` rows; for negative `n`, all rows but the
last `|n|`. -/
def pyHead {α : Type _} (l : List α) (n : Int) : List α :=
  if 0 ≤ n then l.take n.toNat else l.take (l.length - (-n).toNat)

/-! ## Card normalization (`PADService._row_to_card_info`) -/

/-- Mirror of the `CardInfo` dataclass.  `sample_id`, `quantity` and
`camera_type` receive whatever cell value `_safe_get` found (the dataclass
annotations are unchecked). -/
structure CardInfo where
  id : Int
  sample_id : Option Value
  sample_name : String
  project_name : String
  user_name : String
  date_of_creation : String
  quantity : Option Value
  notes : Option NotesInfo
  image_url : Option String
  camera_type : Option Value

/-- `PADService._row_to_card_info`.  The fallible constructor arguments
(`int(...)`, `_parse_notes`, `_convert_image_path_to_url`) are evaluated in
Python's argument order, so the first to raise determines the exception. -/
def row_to_card_info (row : Row) : Except PyErr CardInfo :=
  let raw_image_path := safe_get row ["processed_file_location", "raw_file_location", "url", "image_url"]
  let raw_notes := safe_get row ["notes", "note"]
  match pyInt ((safe_get row ["id", "card_id"]).getD (.int 0)) with
  | .error e => .error e
  | .ok idv =>
    match parse_notes raw_notes with
    | .error e => .error e
    | .ok notesv =>
      match convert_image_path_to_url raw_image_path with
      | .error e => .error e
      | .ok imgv =>
        .ok ⟨idv,
          safe_get row ["sample_id"],
          pyStr ((safe_get row ["sample_name", "sample_name.name", "drug_name"]).getD (.str "Unknown")),
          pyStr ((safe_get row ["project.project_name", "project_name", "project.name"]).getD (.str "Unknown")),
          pyStr ((safe_get row ["user_name", "user_name.name", "user"]).getD (.str "Unknown")),
          format_datetime ((safe_get row ["date_of_creation", "created_at", "date"]).getD (.str "")),
          safe_get row ["quantity", "concentration"],
          notesv,
          imgv,
          safe_get row ["camera_type_1", "camera_type"]⟩

/-- Convert each row of a sliced frame, left to right, stopping at the first
exception — the list comprehension of `get_recent_cards_in_project`. -/
def mapRows : List Row → Except PyErr (List CardInfo)
  | [] => .ok []
  | r :: rs =>
    match row_to_card_info r with
    | .error e => .error e
    | .ok c =>
      match mapRows rs with
      | .error e => .error e
      | .ok cs => .ok (c :: cs)

/-! ## The service (`PADService`) -/

/-- The external `pad_analytics` module.  `get_project_cards` receives a
project name (string) or a project id cell, exactly as the Python code
passes either. -/
structure PadSource where
  get_projects : Except PyErr DataFrame
  get_project_cards : Value → Except PyErr DataFrame
  get_card : Int → Except PyErr (Option DataFrame)

/-- The two memoized fields of a `PADService` instance. -/
structure ServiceState where
  projects_cache : Option DataFrame
  users_cache : Option (List Value)
deriving DecidableEq, Repr

/-- The state right after `PADService.__init__`. -/
def initState : ServiceState := ⟨none, none⟩

/-- The `try/except Exception` wrapper of the four card-lookup operations:
any raised exception is swallowed and the degraded value returned; the state
reached before the exception persists. -/
def catchAll {α : Type _} (dflt : α) : Except PyErr α × ServiceState → Except PyErr α × ServiceState
  | (.error _, st') => (.ok dflt, st')
  | r => r

/-- `PADService.get_projects` — no `try/except`: a source failure
propagates, and the cache is only filled on success. -/
def get_projects (src : PadSource) (st : ServiceState) : Except PyErr DataFrame × ServiceState :=
  match st.projects_cache with
  | some df => (.ok df, st)
  | none =>
    match src.get_projects with
    | .ok df => (.ok df, ⟨some df, st.users_cache⟩)
    | .error e => (.error e, st)

/-- First-occurrence deduplication, as `Series.unique`. -/
def dedupFirst (l : List Value) : List Value :=
  l.foldl (fun acc v => if acc.contains v then acc else acc ++ [v]) []

/-- Python `sorted` (ascending), on the same comparison model. -/
def pySorted (l : List Value) : List Value := sortDesc (fun a b => valLE b a) l

/-- `PADService.get_users` — no `try/except` either: an error from
`get_projects` propagates. -/
def get_users (src : PadSource) (st : ServiceState) : Except PyErr (List Value) × ServiceState :=
  match st.users_cache with
  | some us => (.ok us, st)
  | none =>
    match get_projects src st with
    | (.error e, st') => (.error e, st')
    | (.ok projects, st') =>
      if projects.cols.contains "user_name" then
        let us := pySorted (dedupFirst
          ((projects.rows.map (fun r => (List.lookup "user_name" r).getD .null)).filter
            (fun v => v ≠ .null)))
        (.ok us, ⟨st'.projects_cache, some us⟩)
      else (.ok [], ⟨st'.projects_cache, some []⟩)

/-- `cards[cards[user_col].str.lower() == username.lower()]`: a row matches
when its user cell is a string equal to the username up to case (a
non-string cell maps to NaN under `.str.lower()` and never matches). -/
def userMatch (uc username : String) (r : Row) : Bool :=
  match List.lookup uc r with
  | some (.str s) => pyLower s == pyLower username
  | _ => false

/-- `pd.concat(all_cards, ignore_index=True)`: union of the column indexes,
concatenation of the rows. -/
def concatDfs (dfs : List DataFrame) : DataFrame :=
  ⟨dfs.foldl (fun acc df => acc ++ df.cols.filter (fun c => ¬ acc.contains c)) [],
   dfs.foldl (fun acc df => acc ++ df.rows) []⟩

/-- The no-project branch of `get_latest_card_by_user`: fetch every
project's cards (skipping per-project failures and empty frames), returning
`ok none` when nothing was collected. -/
def fetchAllUserCards (src : PadSource) (st : ServiceState) :
    Except PyErr (Option DataFrame) × ServiceState :=
  match get_projects src st with
  | (.error e, st') => (.error e, st')
  | (.ok projects, st') =>
    if projects.cols.contains "id" then
      let pids := projects.rows.map (fun r => (List.lookup "id" r).getD Value.null)
      let dfs := pids.filterMap (fun pid =>
        match src.get_project_cards pid with
        | .ok df => if df.rows.isEmpty then none else some df
        | .error _ => none)
      if dfs.isEmpty then (.ok none, st')
      else (.ok (some (concatDfs dfs)), st')
    else (.error .keyError, st')

/-- The candidate names of the creation-date column. -/
def dateCands : List String := ["date_of_creation", "created_at", "date"]

/-- The body of the `try` block of `get_latest_card_by_user`.  A present but
empty `project_name` is falsy, so it takes the all-projects branch. -/
def glcbuBody (src : PadSource) (st : ServiceState) (username : String)
    (project_name : Option String) : Except PyErr (Option CardInfo) × ServiceState :=
  let fetched : Except PyErr (Option DataFrame) × ServiceState :=
    match project_name with
    | some p =>
      if p = "" then fetchAllUserCards src st
      else ((src.get_project_cards (Value.str p)).map some, st)
    | none => fetchAllUserCards src st
  match fetched with
  | (.error e, st') => (.error e, st')
  | (.ok none, st') => (.ok none, st')
  | (.ok (some cards), st') =>
    if cards.rows.isEmpty then (.ok none, st')
    else
      match find_column cards ["user_name", "user"] with
      | none => (.ok none, st')
      | some uc =>
        let user_cards := cards.rows.filter (userMatch uc username)
        if user_cards.isEmpty then (.ok none, st')
        else
          let sorted :=
            match find_column cards dateCands with
            | some dc => sort_values_desc user_cards dc
            | none => user_cards
          match sorted with
          | [] => (.error .indexError, st')
          | r :: _ => ((row_to_card_info r).map some, st')

/-- `PADService.get_latest_card_by_user`. -/
def get_latest_card_by_user (src : PadSource) (st : ServiceState) (username : String)
    (project_name : Option String) : Except PyErr (Option CardInfo) × ServiceState :=
  catchAll none (glcbuBody src st username project_name)

/-- The body of the `try` block of `get_card_by_id` (state untouched). -/
def gcbiBody (src : PadSource) (card_id : Int) : Except PyErr (Option CardInfo) :=
  match src.get_card card_id with
  | .error e => .error e
  | .ok none => .ok none
  | .ok (some df) =>
    match df.rows with
    | [] => .ok none
    | r :: _ => (row_to_card_info r).map some

/-- `PADService.get_card_by_id`. -/
def get_card_by_id (src : PadSource) (st : ServiceState) (card_id : Int) :
    Except PyErr (Option CardInfo) × ServiceState :=
  catchAll none (gcbiBody src card_id, st)

/-- The body of the `try` block of `get_recent_cards_in_project`. -/
def grcBody (src : PadSource) (project_name : String) (limit : Int) :
    Except PyErr (List CardInfo) :=
  match src.get_project_cards (.str project_name) with
  | .error e => .error e
  | .ok cards =>
    if cards.rows.isEmpty then .ok []
    else
      let sorted :=
        match find_column cards dateCands with
        | some dc => sort_values_desc cards.rows dc
        | none => cards.rows
      mapRows (pyHead sorted limit)

/-- `PADService.get_recent_cards_in_project`. -/
def get_recent_cards_in_project (src : PadSource) (st : ServiceState)
    (project_name : String) (limit : Int) : Except PyErr (List CardInfo) × ServiceState :=
  catchAll [] (grcBody src project_name limit, st)

/-- The body of the `try` block of `get_latest_card_in_project`. -/
def glcipBody (src : PadSource) (project_name : String) : Except PyErr (Option CardInfo) :=
  match src.get_project_cards (.str project_name) with
  | .error e => .error e
  | .ok cards =>
    if cards.rows.isEmpty then .ok none
    else
      let sorted :=
        match find_column cards dateCands with
        | some dc => sort_values_desc cards.rows dc
        | none => cards.rows
      match sorted with
      | [] => .error .indexError
      | r :: _ => (row_to_card_info r).map some

/-- `PADService.get_latest_card_in_project`. -/
def get_latest_card_in_project (src : PadSource) (st : ServiceState) (project_name : String) :
    Except PyErr (Option CardInfo) × ServiceState :=
  catchAll none (glcipBody src project_name, st)

/-- `PADService.clear_cache`. -/
def clear_cache (_st : ServiceState) : ServiceState := ⟨none, none⟩

/-! ## The router handlers the claims mention (`main.py`) -/

/-- What the `/search` handler passes to its template. -/
structure SearchResult where
  card : Option CardInfo
  username : Option String
  error : Option String
  recent : List CardInfo

/-- The common tail of the `/search` handler once the card lookup is done. -/
def searchRender (src : PadSource) (st : ServiceState) (project : String)
    (uname : Option String) (card : Option CardInfo) (errMsg : String) :
    Except PyErr SearchResult × ServiceState :=
  match get_recent_cards_in_project src st project 3 with
  | (.error e, st') => (.error e, st')
  | (.ok recent, st') =>
    (.ok ⟨card, uname, if card.isSome then none else some errMsg, recent⟩, st')

/-- The latest-card-in-project path of `/search` (taken when the stripped
username is absent or empty). -/
def searchProjectPath (src : PadSource) (st : ServiceState) (project : String)
    (uname : Option String) : Except PyErr SearchResult × ServiceState :=
  match get_latest_card_in_project src st project with
  | (.error e, st') => (.error e, st')
  | (.ok card, st') =>
    searchRender src st' project uname card
      ("No cards found in project \x27" ++ project ++ "\x27")

/-- The `POST /search` handler.  `username = username.strip() if username
else None`, then `if username:` chooses the per-user or per-project path. -/
def search (src : PadSource) (st : ServiceState) (project : String)
    (username : Option String) : Except PyErr SearchResult × ServiceState :=
  let uname : Option String :=
    match username with
    | some u => if u = "" then none else some (pyStrip u)
    | none => none
  match uname with
  | some u =>
    if u = "" then searchProjectPath src st project uname
    else
      match get_latest_card_by_user src st u (some project) with
      | (.error e, st') => (.error e, st')
      | (.ok card, st') =>
        searchRender src st' project uname card
          ("No cards found for user \x27" ++ u ++ "\x27 in project \x27" ++ project ++ "\x27")
  | none => searchProjectPath src st project uname

/-- What the `/check-newer` handler renders. -/
inductive Resp where
  | notice (project : String) (new_id : Int)
  | empty
deriving Repr

/-- The `GET /check-newer` handler. -/
def check_newer (src : PadSource) (st : ServiceState) (project : String) (current_id : Int) :
    Except PyErr Resp × ServiceState :=
  match get_latest_card_in_project src st project with
  | (.error e, st') => (.error e, st')
  | (.ok none, st') => (.ok .empty, st')
  | (.ok (some c), st') =>
    (.ok (if c.id ≠ current_id then Resp.notice project c.id else .empty), st')

/-! ## Order and sorting lemmas -/

theorem valLE_total : ∀ a b : Value, valLE a b = true ∨ valLE b a = true := by
  intro a b
  cases a <;> cases b <;>
    simp only [valLE, Value.rank, decide_eq_true_eq] <;>
    first
      | exact le_total _ _
      | exact strLeb_total _ _
      | omega
      | tauto
      | (rename_i x y; cases x <;> cases y <;> simp)

theorem valLE_trans :
    ∀ a b c : Value, valLE a b = true → valLE b c = true → valLE a c = true := by
  intro a b c hab hbc
  cases a <;> cases b <;> cases c <;>
    simp only [valLE, Value.rank, decide_eq_true_eq] at hab hbc ⊢ <;>
    first
      | exact le_trans hab hbc
      | exact strLeb_trans _ _ _ hab hbc
      | omega
      | trivial
      | (rename_i x y z; cases x <;> cases y <;> cases z <;> simp_all)

theorem mem_insertDesc {α : Type _} (le : α → α → Bool) (x : α) (l : List α) :
    ∀ y, y ∈ insertDesc le x l ↔ y = x ∨ y ∈ l := by
  induction l with
  | nil => intro y; simp [insertDesc]
  | cons z zs ih =>
    intro y
    by_cases h : le z x = true <;> simp [insertDesc, h, ih y] <;> tauto

theorem length_insertDesc {α : Type _} (le : α → α → Bool) (x : α) (l : List α) :
    (insertDesc le x l).length = l.length + 1 := by
  induction l with
  | nil => rfl
  | cons z zs ih =>
    by_cases h : le z x = true <;> simp [insertDesc, h, ih] <;> omega

theorem mem_sortDesc {α : Type _} (le : α → α → Bool) (l : List α) :
    ∀ y, y ∈ sortDesc le l ↔ y ∈ l := by
  induction l with
  | nil => intro y; simp [sortDesc]
  | cons z zs ih =>
    intro y
    simp [sortDesc, mem_insertDesc, ih y]

theorem length_sortDesc {α : Type _} (le : α → α → Bool) (l : List α) :
    (sortDesc le l).length = l.length := by
  induction l with
  | nil => rfl
  | cons z zs ih => simp [sortDesc, length_insertDesc, ih]

theorem pairwise_insertDesc {α : Type _} (le : α → α → Bool)
    (htot : ∀ a b, le a b = true ∨ le b a = true)
    (htrans : ∀ a b c, le a b = true → le b c = true → le a c = true)
    (x : α) (l : List α) (h : l.Pairwise (fun a b => le b a = true)) :
    (insertDesc le x l).Pairwise (fun a b => le b a = true) := by
  induction l with
  | nil => simp [insertDesc]
  | cons y ys ih =>
    rcases List.pairwise_cons.mp h with ⟨hy, hys⟩
    by_cases hle : le y x = true
    · simp only [insertDesc, hle, if_pos]
      refine List.pairwise_cons.mpr ⟨?_, h⟩
      intro z hz
      rcases List.mem_cons.mp hz with rfl | hz'
      · exact hle
      · exact htrans _ _ _ (hy z hz') hle
    · simp only [insertDesc, hle, if_neg, Bool.not_eq_true]
      refine List.pairwise_cons.mpr ⟨?_, ih hys⟩
      intro z hz
      rcases (mem_insertDesc le x ys z).mp hz with rfl | hz'
      · rcases htot y z with hyx | hxy
        · exact absurd hyx (by simp [hle])
        · exact hxy
      · exact hy z hz'

theorem pairwise_sortDesc {α : Type _} (le : α → α → Bool)
    (htot : ∀ a b, le a b = true ∨ le b a = true)
    (htrans : ∀ a b c, le a b = true → le b c = true → le a c = true)
    (l : List α) :
    (sortDesc le l).Pairwise (fun a b => le b a = true) := by
  induction l with
  | nil => simp [sortDesc]
  | cons z zs ih => exact pairwise_insertDesc le htot htrans z (sortDesc le zs) ih

/-- A nonempty list's descending sort starts with a maximum element. -/
theorem sortDesc_head_max {α : Type _} (le : α → α → Bool)
    (htot : ∀ a b, le a b = true ∨ le b a = true)
    (htrans : ∀ a b c, le a b = true → le b c = true → le a c = true)
    (l : List α) (hne : l ≠ []) :
    ∃ h t, sortDesc le l = h :: t ∧ h ∈ l ∧ ∀ y ∈ l, le y h = true := by
  have hlen : (sortDesc le l).length = l.length := length_sortDesc le l
  cases hs : sortDesc le l with
  | nil =>
    exfalso
    apply hne
    have := hlen
    rw [hs] at this
    exact List.length_eq_zero.mp this.symm
  | cons h t =>
    refine ⟨h, t, rfl, (mem_sortDesc le l h).mp (by simp [hs]), ?_⟩
    intro y hy
    have hy' : y ∈ h :: t := by rw [← hs]; exact (mem_sortDesc le l y).mpr hy
    rcases List.mem_cons.mp hy' with rfl | hyt
    · rcases htot y y with hyy | hyy <;> exact hyy
    · have hp := pairwise_sortDesc le htot htrans l
      rw [hs] at hp
      exact (List.pairwise_cons.mp hp).1 y hyt

/-- The row comparator used by `sort_values_desc` is total. -/
theorem rowLE_total (dc : String) :
    ∀ a b : Row, valLE (rowKey dc a) (rowKey dc b) = true ∨
      valLE (rowKey dc b) (rowKey dc a) = true := by
  intro a b; exact valLE_total _ _

/-- The row comparator used by `sort_values_desc` is transitive. -/
theorem rowLE_trans (dc : String) :
    ∀ a b c : Row, valLE (rowKey dc a) (rowKey dc b) = true →
      valLE (rowKey dc b) (rowKey dc c) = true →
      valLE (rowKey dc a) (rowKey dc c) = true := by
  intro a b c; exact valLE_trans _ _ _

/-! ## Generic lemmas about the service combinators -/

theorem catchAll_isOk {α : Type _} (dflt : α) (b : Except PyErr α × ServiceState) :
    ((catchAll dflt b).1).isOk = true := by
  rcases b with ⟨r, st⟩
  cases r <;> simp [catchAll, Except.isOk, Except.toBool]

theorem catchAll_ok {α : Type _} (dflt : α) (b : Except PyErr α × ServiceState) (v : α)
    (st' : ServiceState) (h : b = (.ok v, st')) : catchAll dflt b = (.ok v, st') := by
  rw [h]; rfl

theorem mapRows_ok (l : List Row) (h : ∀ r ∈ l, (row_to_card_info r).isOk = true) :
    ∃ cs, mapRows l = .ok cs ∧ cs.length = l.length := by
  induction l with
  | nil => exact ⟨[], rfl, rfl⟩
  | cons r rs ih =>
    have hr := h r (by simp)
    rcases hc : row_to_card_info r with e | c
    · rw [hc] at hr; simp [Except.isOk, Except.toBool] at hr
    · rcases ih (fun r' hr' => h r' (by simp [hr'])) with ⟨cs, hcs, hlen⟩
      exact ⟨c :: cs, by simp [mapRows, hc, hcs], by simp [hlen]⟩

theorem mapRows_length (l : List Row) (cs : List CardInfo) (h : mapRows l = .ok cs) :
    cs.length = l.length := by
  induction l generalizing cs with
  | nil => cases h; rfl
  | cons r rs ih =>
    dsimp [mapRows] at h
    rcases hc : row_to_card_info r with e | c <;> rw [hc] at h
    · cases h
    · rcases hcs : mapRows rs with e | cs' <;> rw [hcs] at h
      · cases h
      · cases h
        simp [ih cs' hcs]

/-- `df.head` is always a `take`. -/
theorem pyHead_eq_take {α : Type _} (l : List α) (n : Int) :
    ∃ m, pyHead l n = l.take m := by
  unfold pyHead
  by_cases h : 0 ≤ n
  · rw [if_pos h]; exact ⟨_, rfl⟩
  · rw [if_neg h]; exact ⟨_, rfl⟩

theorem pyHead_length_le {α : Type _} (l : List α) (n : Int) (h : 0 ≤ n) :
    (pyHead l n).length ≤ n.toNat := by
  unfold pyHead
  simp [h]

set_option maxRecDepth 16384

/-! ## Concrete fixtures used by witnesses and counterexamples -/

def row1 : Row :=
  [("id", .int 1), ("user_name", .str "Alice"),
   ("date_of_creation", .str "2024-01-01T10:00:00Z"), ("sample_name", .str "amox")]

def row2 : Row :=
  [("id", .int 2), ("user_name", .str "alice"),
   ("date_of_creation", .str "2024-01-02T10:00:00Z")]

def row3 : Row :=
  [("id", .int 3), ("user_name", .str "bob"),
   ("date_of_creation", .str "2024-03-02T10:00:00Z")]

def dfW : DataFrame :=
  ⟨["id", "user_name", "date_of_creation", "sample_name"], [row1, row2, row3]⟩

def projDf : DataFrame :=
  ⟨["id", "project_name", "user_name"],
   [[("id", .int 7), ("project_name", .str "p"), ("user_name", .str "Alice")]]⟩

/-- A well-behaved stub source: one project `"p"` with three cards. -/
def srcW : PadSource :=
  ⟨.ok projDf,
   fun v => if v == .str "p" then .ok dfW else .error (.external "nope"),
   fun cid => if cid == 1 then .ok (some dfW) else .ok none⟩

/-- A stub source whose every call raises. -/
def badSrc : PadSource :=
  ⟨.error (.external "boom"),
   fun _ => .error (.external "boom"),
   fun _ => .error (.external "boom")⟩

/-- The normalization of `row3`, the latest card of project `"p"`. -/
def cardW : CardInfo :=
  ⟨3, none, "Unknown", "Unknown", "bob", "02/03/2024 10:00 AM", none, none, none, none⟩

/-! ## C9 — image path conversion -/

/-- Spec step: strip a literal `/var/www/html` prefix if present. -/
def stripHtmlRoot (path : String) : String :=
  if pyStartswith path "/var/www/html" then pyDrop path ("/var/www/html".data.length) else path

/-- Spec step: ensure the remainder starts with a slash. -/
def ensureLeadingSlash (p : String) : String := if pyStartswith p "/" then p else "/" ++ p

/-- The spec's description of the public URL of a stored image path. -/
def imageUrlSpec (path : String) : String := PAD_BASE_URL ++ ensureLeadingSlash (stripHtmlRoot path)

/-- C9: for every non-empty stored image path, the conversion strips a
literal `/var/www/html` prefix if present, ensures a leading slash, and
prepends `https://pad.crc.nd.edu`; in particular both
`/var/www/html/images/x.png` and `images/x.png` map to
`https://pad.crc.nd.edu/images/x.png`. -/
theorem C9_image_url (path : String) (h : path ≠ "") :
    convert_image_path_to_url (some (Value.str path)) = .ok (some (imageUrlSpec path))
  ∧ convert_image_path_to_url (some (Value.str "/var/www/html/images/x.png")) =
      .ok (some "https://pad.crc.nd.edu/images/x.png")
  ∧ convert_image_path_to_url (some (Value.str "images/x.png")) =
      .ok (some "https://pad.crc.nd.edu/images/x.png") := by
  refine ⟨?_, rfl, rfl⟩
  simp [convert_image_path_to_url, pyFalsy, h, imageUrlSpec, ensureLeadingSlash, stripHtmlRoot,
    PAD_BASE_URL]

/-- Witness for C9 at the concrete path `images/x.png`. -/
theorem C9_image_url_witness :
    convert_image_path_to_url (some (Value.str "images/x.png")) =
      .ok (some (imageUrlSpec "images/x.png")) :=
  (C9_image_url "images/x.png" (by decide)).1

/-! ## C8 — timestamp formatting -/

/-- The claim's description of the formatter: parse as ISO-8601 treating a
single *trailing* `"Z"` as the UTC offset `+00:00`. -/
def formatDatetimeSpec : Option String → String
  | none => ""
  | some s =>
    if s = "" then ""
    else
      let s' := if s.data.getLast? = some 'Z'
        then String.mk (s.data.dropLast ++ ['+', '0', '0', ':', '0', '0'])
        else s
      match fromisoformat s' with
      | some dt => renderDt dt
      | none => s

/-- The amended description: *every* occurrence of `"Z"` is replaced by
`"+00:00"` before parsing, because the code calls `str.replace`. -/
def formatDatetimeAmendedSpec : Option String → String
  | none => ""
  | some s =>
    if s = "" then ""
    else
      match fromisoformat (pyReplaceZ s) with
      | some dt => renderDt dt
      | none => s

/-- C8 fails as stated: on `"2024-01-01Z:30"` the code replaces the
interior `"Z"`, obtaining `"2024-01-01+00:00:30"`, which
`fromisoformat` accepts (`+` acts as the date/time separator), so the code
renders a date while the trailing-Z reading passes the string through. -/
theorem C8_format_datetime_counterexample :
    format_datetime (Value.str "2024-01-01Z:30") = "01/01/2024 12:00 AM"
  ∧ formatDatetimeSpec (some "2024-01-01Z:30") = "2024-01-01Z:30"
  ∧ format_datetime (Value.str "2024-01-01Z:30") ≠
      formatDatetimeSpec (some "2024-01-01Z:30") := by
  refine ⟨rfl, rfl, ?_⟩
  decide

/-- C8 amended: the formatter replaces every `"Z"` (not only a trailing
one) by `"+00:00"`, then parses and re-renders as `DD/MM/YYYY hh:mm AM/PM`,
passing the original string through on failure; a missing or empty
timestamp yields the empty string. -/
theorem C8_format_datetime_amended :
    (∀ s : String, format_datetime (Value.str s) = formatDatetimeAmendedSpec (some s))
  ∧ format_datetime Value.null = formatDatetimeAmendedSpec none := by
  refine ⟨?_, rfl⟩
  intro s
  by_cases h : s = ""
  · subst h; rfl
  · simp [format_datetime, formatDatetimeAmendedSpec, pyFalsy, h]

/-! ## C6 — the check-newer endpoint -/

/-- C6: the `/check-newer` handler returns the notice exactly when the
project's current latest card exists and its identifier differs from
`current_id`; identical identifiers (or no latest card) yield empty
output. -/
theorem C6_check_newer (src : PadSource) (st : ServiceState) (project : String)
    (current_id : Int) :
    (∀ c, (get_latest_card_in_project src st project).1 = .ok (some c) →
       (((check_newer src st project current_id).1 = .ok (Resp.notice project c.id)) ↔
          c.id ≠ current_id)
     ∧ (c.id = current_id → (check_newer src st project current_id).1 = .ok Resp.empty))
  ∧ ((get_latest_card_in_project src st project).1 = .ok none →
      (check_newer src st project current_id).1 = .ok Resp.empty) := by
  rcases hg : get_latest_card_in_project src st project with ⟨r, st'⟩
  constructor
  · intro c hc
    have hr : r = .ok (some c) := hc
    subst hr
    constructor
    · constructor
      · intro hn
        by_contra heq
        simp [check_newer, hg, heq] at hn
      · intro hne
        simp [check_newer, hg, hne]
    · intro hceq
      simp [check_newer, hg, hceq]
  · intro hc
    have hr : r = .ok none := hc
    subst hr
    simp [check_newer, hg]

/-- Witness for C6 on the stub source: the latest card of `"p"` has id 3,
so `current_id = 3` yields empty and `current_id = 2` yields the notice. -/
theorem C6_check_newer_witness :
    (check_newer srcW initState "p" 3).1 = .ok Resp.empty
  ∧ (check_newer srcW initState "p" 2).1 = .ok (Resp.notice "p" cardW.id) := by
  constructor
  · exact ((C6_check_newer srcW initState "p" 3).1 cardW rfl).2 rfl
  · exact ((C6_check_newer srcW initState "p" 2).1 cardW rfl).1.mpr (by decide)

/-! ## C5 — cache lifecycle -/

/-- C5: `get_projects` fetches only when the cache is empty; a populated
cache is returned identically with no call to the source (the result does
not depend on the source at all); `clear_cache` evicts both caches, and the
next access re-fetches. -/
theorem C5_cache_lifecycle (src src' : PadSource) (st : ServiceState) (df df' : DataFrame) :
    (st.projects_cache = some df → get_projects src st = (.ok df, st))
  ∧ (st.projects_cache = none → src.get_projects = .ok df' →
       get_projects src st = (.ok df', ⟨some df', st.users_cache⟩)
     ∧ get_projects src' ⟨some df', st.users_cache⟩ =
         (.ok df', ⟨some df', st.users_cache⟩))
  ∧ clear_cache st = ⟨none, none⟩
  ∧ (src.get_projects = .ok df' →
       get_projects src (clear_cache st) = (.ok df', ⟨some df', none⟩)) := by
  refine ⟨?_, ?_, rfl, ?_⟩
  · intro h
    simp [get_projects, h]
  · intro h hf
    constructor
    · simp [get_projects, h, hf]
    · simp [get_projects]
  · intro hf
    simp [get_projects, clear_cache, hf]

/-- Witness for C5: on the stub source the first access fetches and caches
the project table; the populated cache then answers even a source whose
every call raises; clearing resets both fields. -/
theorem C5_cache_lifecycle_witness :
    get_projects srcW initState = (.ok projDf, ⟨some projDf, none⟩)
  ∧ get_projects badSrc ⟨some projDf, none⟩ = (.ok projDf, ⟨some projDf, none⟩)
  ∧ clear_cache ⟨some projDf, some []⟩ = ⟨none, none⟩ := by
  have h := C5_cache_lifecycle srcW badSrc initState projDf projDf
  have h2 := C5_cache_lifecycle badSrc srcW (⟨some projDf, none⟩ : ServiceState) projDf projDf
  exact ⟨(h.2.1 rfl rfl).1, h2.1 rfl,
    (C5_cache_lifecycle badSrc srcW (⟨some projDf, some []⟩ : ServiceState) projDf projDf).2.2.1⟩

/-! ## C1 — failure semantics of the service operations -/

/-- C1 fails as stated: `get_projects` (and `get_users`) has no
`try/except`, so an error raised by the external source propagates to the
caller instead of degrading. -/
theorem C1_error_handling_counterexample :
    (get_projects badSrc initState).1 = .error (.external "boom")
  ∧ (get_users badSrc initState).1 = .error (.external "boom") := ⟨rfl, rfl⟩

/-- C1 amended: the four card-lookup operations catch every error and
degrade (to `None` for single-card lookups, the empty list for the list
lookup) — their outer result is always `ok`, and a failing source call
yields exactly the degraded value with the state unchanged; but
`get_projects` and `get_users` propagate an external-source error to the
caller when their caches are empty. -/
theorem C1_error_handling_amended (src : PadSource) (st : ServiceState) :
    (∀ username pn, ((get_latest_card_by_user src st username pn).1).isOk = true)
  ∧ (∀ cid, ((get_card_by_id src st cid).1).isOk = true)
  ∧ (∀ p limit, ((get_recent_cards_in_project src st p limit).1).isOk = true)
  ∧ (∀ p, ((get_latest_card_in_project src st p).1).isOk = true)
  ∧ (∀ p username limit e, p ≠ "" → src.get_project_cards (Value.str p) = .error e →
       get_latest_card_by_user src st username (some p) = (.ok none, st)
     ∧ get_recent_cards_in_project src st p limit = (.ok [], st)
     ∧ get_latest_card_in_project src st p = (.ok none, st))
  ∧ (∀ cid e, src.get_card cid = .error e → get_card_by_id src st cid = (.ok none, st))
  ∧ (∀ e, st.projects_cache = none → src.get_projects = .error e →
       (get_projects src st).1 = .error e
     ∧ (st.users_cache = none → (get_users src st).1 = .error e)) := by
  refine ⟨?_, ?_, ?_, ?_, ?_, ?_, ?_⟩
  · intro username pn; exact catchAll_isOk none _
  · intro cid; exact catchAll_isOk none _
  · intro p limit; exact catchAll_isOk [] _
  · intro p; exact catchAll_isOk none _
  · intro p username limit e hp he
    refine ⟨?_, ?_, ?_⟩
    · simp [get_latest_card_by_user, glcbuBody, hp, he, catchAll, Except.map]
    · simp [get_recent_cards_in_project, grcBody, he, catchAll]
    · simp [get_latest_card_in_project, glcipBody, he, catchAll]
  · intro cid e he
    simp [get_card_by_id, gcbiBody, he, catchAll]
  · intro e hc he
    have hp : get_projects src st = (.error e, st) := by
      simp [get_projects, hc, he]
    refine ⟨by rw [hp], ?_⟩
    intro hu
    simp [get_users, hu, hp]

/-- Witness for C1 on the everywhere-failing stub source: each card lookup
degrades, the state is untouched, and the project fetch surfaces the
error. -/
theorem C1_error_handling_witness :
    get_latest_card_by_user badSrc initState "u" (some "p") = (.ok none, initState)
  ∧ get_recent_cards_in_project badSrc initState "p" 3 = (.ok [], initState)
  ∧ get_latest_card_in_project badSrc initState "p" = (.ok none, initState)
  ∧ get_card_by_id badSrc initState 5 = (.ok none, initState)
  ∧ (get_users badSrc initState).1 = .error (.external "boom") := by
  obtain ⟨h1, h2, h3, h4, h5, h6, h7⟩ := C1_error_handling_amended badSrc initState
  have hp := h5 "p" "u" 3 (.external "boom") (by decide) rfl
  exact ⟨hp.1, hp.2.1, hp.2.2, h6 5 (.external "boom") rfl,
    (h7 (.external "boom") rfl rfl).2 rfl⟩

/-! ## C2 — totality of normalization -/

/-- C2 fails as stated: a row whose id cell holds a non-numeric string
makes `int(...)` raise `ValueError`, so `_row_to_card_info` does not
terminate without error on every row. -/
theorem C2_normalization_counterexample :
    row_to_card_info [("id", Value.str "abc")] = .error PyErr.valueError := rfl

/-- C2 amended: `_row_to_card_info` produces a fully populated card — with
fallbacks `"Unknown"` for the sample, project and user names, `0` for the
identifier and `""` for the creation timestamp — for every row on which its
three fallible constructor arguments succeed: the resolved id value
converts with `int(...)`, the resolved notes value parses (or its failure
is caught), and the resolved image path is not a truthy non-string. -/
theorem C2_normalization_amended (row : Row)
    (h1 : (pyInt ((safe_get row ["id", "card_id"]).getD (.int 0))).isOk = true)
    (h2 : (parse_notes (safe_get row ["notes", "note"])).isOk = true)
    (h3 : (convert_image_path_to_url
        (safe_get row ["processed_file_location", "raw_file_location", "url", "image_url"])).isOk
          = true) :
    ∃ ci, row_to_card_info row = .ok ci
      ∧ (safe_get row ["id", "card_id"] = none → ci.id = 0)
      ∧ (safe_get row ["sample_name", "sample_name.name", "drug_name"] = none →
           ci.sample_name = "Unknown")
      ∧ (safe_get row ["project.project_name", "project_name", "project.name"] = none →
           ci.project_name = "Unknown")
      ∧ (safe_get row ["user_name", "user_name.name", "user"] = none → ci.user_name = "Unknown")
      ∧ (safe_get row ["date_of_creation", "created_at", "date"] = none →
           ci.date_of_creation = "") := by
  rcases hi : pyInt ((safe_get row ["id", "card_id"]).getD (.int 0)) with e | idv
  · rw [hi] at h1; simp [Except.isOk, Except.toBool] at h1
  rcases hn : parse_notes (safe_get row ["notes", "note"]) with e | notesv
  · rw [hn] at h2; simp [Except.isOk, Except.toBool] at h2
  rcases hc : convert_image_path_to_url
      (safe_get row ["processed_file_location", "raw_file_location", "url", "image_url"])
    with e | imgv
  · rw [hc] at h3; simp [Except.isOk, Except.toBool] at h3
  refine ⟨⟨idv, safe_get row ["sample_id"],
      pyStr ((safe_get row ["sample_name", "sample_name.name", "drug_name"]).getD (.str "Unknown")),
      pyStr ((safe_get row ["project.project_name", "project_name", "project.name"]).getD
        (.str "Unknown")),
      pyStr ((safe_get row ["user_name", "user_name.name", "user"]).getD (.str "Unknown")),
      format_datetime ((safe_get row ["date_of_creation", "created_at", "date"]).getD (.str "")),
      safe_get row ["quantity", "concentration"], notesv, imgv,
      safe_get row ["camera_type_1", "camera_type"]⟩, ?_, ?_, ?_, ?_, ?_, ?_⟩
  · simp [row_to_card_info, hi, hn, hc]
  · intro h0
    rw [h0] at hi
    simp only [Option.getD] at hi
    have : pyInt (Value.int 0) = .ok (0 : Int) := rfl
    rw [this] at hi
    cases hi
    rfl
  · intro h0; show pyStr _ = _; rw [h0]; rfl
  · intro h0; show pyStr _ = _; rw [h0]; rfl
  · intro h0; show pyStr _ = _; rw [h0]; rfl
  · intro h0; show format_datetime _ = _; rw [h0]; rfl

/-- Witness for C2 on a row with only a user column: id falls back to 0,
names to `"Unknown"`, the timestamp to `""`. -/
theorem C2_normalization_witness :
    ∃ ci, row_to_card_info [("user_name", Value.str "bob")] = .ok ci
      ∧ (safe_get [("user_name", Value.str "bob")] ["id", "card_id"] = none → ci.id = 0)
      ∧ (safe_get [("user_name", Value.str "bob")] ["sample_name", "sample_name.name", "drug_name"]
           = none → ci.sample_name = "Unknown")
      ∧ (safe_get [("user_name", Value.str "bob")]
           ["project.project_name", "project_name", "project.name"] = none →
             ci.project_name = "Unknown")
      ∧ (safe_get [("user_name", Value.str "bob")] ["user_name", "user_name.name", "user"] = none →
           ci.user_name = "Unknown")
      ∧ (safe_get [("user_name", Value.str "bob")] ["date_of_creation", "created_at", "date"]
           = none → ci.date_of_creation = "") :=
  C2_normalization_amended [("user_name", Value.str "bob")] (by decide) (by decide) (by decide)

/-! ## C3 — notes parsing -/

/-- A notes string containing every recognized key, but with `"Phone ID"`
bound to JSON `null`. -/
def cexNotesStr : String :=
  "\x7b\"Phone ID\": null, \"User\": \"u\", \"App type\": \"a\", \"Build\": 1, \"Neural net\": \"n\", \"Predicted drug\": \"d\", \"Prediction score\": 1, \"Safe\": \"s\", \"Quantity NN\": 2, \"Quantity PLS\": 3, \"PLS used\": true, \"Notes\": \"t\"\x7d"

/-- The string decodes to an object that contains every recognized key. -/
def jsonHasAllKeys (s : String) : Bool :=
  match jsonLoads s with
  | .ok (.obj kvs) => notesKeys.all (fun k => kvs.any (fun p => p.1 == k))
  | _ => false

/-- C3 fails as stated: `cexNotesStr` is well-formed JSON containing all
recognized keys, yet the parsed record leaves `phone_id` unset, because
`dict.get` returns Python `None` for a key bound to JSON `null`. -/
theorem C3_parse_notes_counterexample :
    jsonHasAllKeys cexNotesStr = true
  ∧ (parse_notes (some (Value.str cexNotesStr))).map
      (Option.map (fun ni => ni.phone_id.isSome)) = .ok (some false) := ⟨rfl, rfl⟩

/-- C3 amended: for a non-empty notes string decoding to a JSON object in
which every recognized key is bound to a non-null value — and `"User"` and
`"Notes"` to truthy values, since the code reads them with `... or None` —
the record has every structured field set and `raw` unset; a string that
fails to decode yields a record with only `raw` set; and no returned record
ever mixes `raw` with structured fields. -/
theorem C3_parse_notes_amended (s : String) (kvs : List (String × Json)) :
    (s ≠ "" → jsonLoads s = .ok (Json.obj kvs) →
      notesKeys.all (fun k => (pyGet kvs k).isSome) = true →
      (pyGetOrNone kvs "User").isSome = true →
      (pyGetOrNone kvs "Notes").isSome = true →
      ∃ ni, parse_notes (some (Value.str s)) = .ok (some ni)
        ∧ notesAllSet ni = true ∧ ni.raw = none)
  ∧ (s ≠ "" → (∃ e, jsonLoads s = .error e) →
      parse_notes (some (Value.str s)) = .ok (some { emptyNotes with raw := some (.str s) }))
  ∧ (∀ v ni, parse_notes v = .ok (some ni) → ni.raw = none ∨ notesAllUnset ni = true) := by
  refine ⟨?_, ?_, ?_⟩
  · intro hs hj hkeys hu hn
    refine ⟨⟨pyGet kvs "Phone ID", pyGetOrNone kvs "User", pyGet kvs "App type",
      pyGet kvs "Build", pyGet kvs "Neural net", pyGet kvs "Predicted drug",
      pyGet kvs "Prediction score", pyGet kvs "Safe", pyGet kvs "Quantity NN",
      pyGet kvs "Quantity PLS", pyGet kvs "PLS used", pyGetOrNone kvs "Notes", none⟩,
      ?_, ?_, rfl⟩
    · simp [parse_notes, pyFalsy, hs, hj]
    · simp only [notesKeys, List.all_cons, List.all_nil, Bool.and_eq_true] at hkeys
      simp [notesAllSet, hkeys, hu, hn]
  · intro hs he
    rcases he with ⟨e, he⟩
    simp [parse_notes, pyFalsy, hs, he]
  · intro v ni h
    cases v with
    | none => simp [parse_notes] at h
    | some val =>
      by_cases hf : pyFalsy val = true
      · simp [parse_notes, hf] at h
      · cases val with
        | str s =>
          rcases hj : jsonLoads s with e | j
          · simp [parse_notes, hf, hj] at h
            right
            simp [← h, notesAllUnset, emptyNotes]
          · cases j <;> simp [parse_notes, hf, hj] at h <;>
              first
                | (left; simp [← h])
                | skip
        | int n =>
          simp [parse_notes, hf] at h
          right; simp [← h, notesAllUnset, emptyNotes]
        | float q =>
          simp [parse_notes, hf] at h
          right; simp [← h, notesAllUnset, emptyNotes]
        | bool b =>
          simp [parse_notes, hf] at h
          right; simp [← h, notesAllUnset, emptyNotes]
        | null =>
          simp [pyFalsy] at hf

/-- A notes string with every recognized key bound to a truthy value. -/
def wNotesStr : String :=
  "\x7b\"Phone ID\": \"X1\", \"User\": \"u\", \"App type\": \"a\", \"Build\": 12, \"Neural net\": \"n\", \"Predicted drug\": \"d\", \"Prediction score\": 1, \"Safe\": \"s\", \"Quantity NN\": 2, \"Quantity PLS\": 3, \"PLS used\": true, \"Notes\": \"t\"\x7d"

/-- The object `wNotesStr` decodes to. -/
def wNotesKvs : List (String × Json) :=
  match jsonLoads wNotesStr with
  | .ok (.obj kvs) => kvs
  | _ => []

/-- Witness for C3: on `wNotesStr` the parse succeeds with every structured
field set and `raw` unset. -/
theorem C3_parse_notes_witness :
    ∃ ni, parse_notes (some (Value.str wNotesStr)) = .ok (some ni)
      ∧ notesAllSet ni = true ∧ ni.raw = none :=
  (C3_parse_notes_amended wNotesStr wNotesKvs).1 (by decide) rfl rfl rfl rfl

/-! ## C7 — recent cards in a project -/

/-- C7 fails as stated for a negative limit: pandas `head(-1)` drops only
the last row, so the stub project with three cards yields two cards, which
is not "at most `limit`". -/
theorem C7_recent_cards_counterexample :
    ((get_recent_cards_in_project srcW initState "p" (-1)).1).map List.length = .ok 2
  ∧ ¬ ((2 : Int) ≤ -1) := ⟨rfl, by decide⟩

/-- C7 amended: for every *non-negative* limit the operation returns at
most `limit` cards; it returns the empty list when the project has no
cards; and (on a string-valued creation-date column, where the embedded
sort model agrees with pandas, and rows that all normalize) the result is
the normalization of a descending-sorted selection of the project's own
rows. -/
theorem C7_recent_cards_amended (src : PadSource) (st : ServiceState) (project : String)
    (limit : Int) (df : DataFrame)
    (hfetch : src.get_project_cards (Value.str project) = .ok df) :
    (0 ≤ limit → ∀ cs, (get_recent_cards_in_project src st project limit).1 = .ok cs →
       cs.length ≤ limit.toNat)
  ∧ (df.rows = [] → get_recent_cards_in_project src st project limit = (.ok [], st))
  ∧ (∀ dc, find_column df dateCands = some dc →
       (∀ r ∈ df.rows, (rowKey dc r).isStr = true) →
       (∀ r ∈ df.rows, (row_to_card_info r).isOk = true) →
       ∃ rs cs, (∀ r ∈ rs, r ∈ df.rows)
         ∧ rs.Pairwise (fun a b => valLE (rowKey dc b) (rowKey dc a) = true)
         ∧ mapRows rs = .ok cs
         ∧ get_recent_cards_in_project src st project limit = (.ok cs, st)) := by
  refine ⟨?_, ?_, ?_⟩
  · intro hlim cs hcs
    have hg : get_recent_cards_in_project src st project limit =
        catchAll [] (grcBody src project limit, st) := rfl
    rcases hb : grcBody src project limit with e | cs'
    · rw [hg, hb] at hcs
      simp [catchAll] at hcs
      subst hcs
      simp
    · rw [hg, hb] at hcs
      simp [catchAll] at hcs
      subst hcs
      simp only [grcBody, hfetch] at hb
      by_cases h0 : df.rows.isEmpty
      · simp only [h0, if_pos] at hb
        cases hb
        simp
      · simp only [h0, Bool.false_eq_true, if_neg, Bool.not_eq_true] at hb
        have hlen := mapRows_length _ _ hb
        rw [hlen]
        exact pyHead_length_le _ limit hlim
  · intro h0
    simp [get_recent_cards_in_project, grcBody, hfetch, h0, catchAll]
  · intro dc hdc hstr hok
    by_cases h0 : df.rows = []
    · refine ⟨[], [], by simp, by simp, rfl, ?_⟩
      simp [get_recent_cards_in_project, grcBody, hfetch, h0, catchAll]
    · set le : Row → Row → Bool := fun a b => valLE (rowKey dc a) (rowKey dc b) with hle
      have hsorted := pairwise_sortDesc le
        (fun a b => valLE_total _ _) (fun a b c => valLE_trans _ _ _) df.rows
      obtain ⟨m, hm⟩ := pyHead_eq_take (sortDesc le df.rows) limit
      have hsub : pyHead (sortDesc le df.rows) limit ⊆ df.rows := by
        rw [hm]
        intro r hr
        exact (mem_sortDesc le df.rows r).mp (List.take_subset m _ hr)
      have hpw : (pyHead (sortDesc le df.rows) limit).Pairwise
          (fun a b => valLE (rowKey dc b) (rowKey dc a) = true) := by
        rw [hm]
        exact List.Pairwise.sublist (List.take_sublist m _) hsorted
      obtain ⟨cs, hcs, _⟩ := mapRows_ok (pyHead (sortDesc le df.rows) limit)
        (fun r hr => hok r (hsub hr))
      refine ⟨pyHead (sortDesc le df.rows) limit, cs, fun r hr => hsub hr, hpw, hcs, ?_⟩
      simp [get_recent_cards_in_project, grcBody, hfetch, h0, hdc, sort_values_desc, ← hle,
        hcs, catchAll]

/-- Witness for C7 on the stub project with three cards and limit 3. -/
theorem C7_recent_cards_witness :
    ∃ rs cs, (∀ r ∈ rs, r ∈ dfW.rows)
      ∧ rs.Pairwise (fun a b =>
          valLE (rowKey "date_of_creation" b) (rowKey "date_of_creation" a) = true)
      ∧ mapRows rs = .ok cs
      ∧ get_recent_cards_in_project srcW initState "p" 3 = (.ok cs, initState) :=
  (C7_recent_cards_amended srcW initState "p" 3 dfW rfl).2.2 "date_of_creation" rfl
    (by decide) (by decide)

/-! ## C4 — latest card by user -/

/-- C4: with a (non-empty) project name whose card table the source
returns, `get_latest_card_by_user` yields `None` on an empty table, a
missing user column, or no case-insensitive username match; and otherwise
(on a string-valued creation-date column, where the embedded sort model
agrees with pandas, and matching rows that normalize) it returns the
normalization of a matching row whose creation date is maximal among the
matching rows. -/
theorem C4_latest_by_user (src : PadSource) (st : ServiceState) (username project : String)
    (df : DataFrame) (hp : project ≠ "")
    (hfetch : src.get_project_cards (Value.str project) = .ok df) :
    (df.rows = [] → get_latest_card_by_user src st username (some project) = (.ok none, st))
  ∧ (find_column df ["user_name", "user"] = none →
       get_latest_card_by_user src st username (some project) = (.ok none, st))
  ∧ (∀ uc, find_column df ["user_name", "user"] = some uc →
      (df.rows.filter (userMatch uc username) = [] →
         get_latest_card_by_user src st username (some project) = (.ok none, st))
      ∧ (∀ dc, find_column df dateCands = some dc →
          df.rows.filter (userMatch uc username) ≠ [] →
          (∀ r ∈ df.rows.filter (userMatch uc username), (rowKey dc r).isStr = true) →
          (∀ r ∈ df.rows.filter (userMatch uc username), (row_to_card_info r).isOk = true) →
          ∃ r ci, r ∈ df.rows.filter (userMatch uc username)
            ∧ (∀ r' ∈ df.rows.filter (userMatch uc username),
                 valLE (rowKey dc r') (rowKey dc r) = true)
            ∧ row_to_card_info r = .ok ci
            ∧ get_latest_card_by_user src st username (some project) = (.ok (some ci), st))) := by
  refine ⟨?_, ?_, ?_⟩
  · intro h0
    simp [get_latest_card_by_user, glcbuBody, hp, hfetch, h0, catchAll, Except.map]
  · intro hcol
    by_cases h0 : df.rows = []
    · simp [get_latest_card_by_user, glcbuBody, hp, hfetch, h0, catchAll, Except.map]
    · simp [get_latest_card_by_user, glcbuBody, hp, hfetch, h0, hcol, catchAll, Except.map]
  · intro uc huc
    constructor
    · intro hm
      by_cases h0 : df.rows = []
      · simp [get_latest_card_by_user, glcbuBody, hp, hfetch, h0, catchAll, Except.map]
      · simp [get_latest_card_by_user, glcbuBody, hp, hfetch, h0, huc, hm, catchAll, Except.map]
    · intro dc hdc hne hstr hok
      have h0 : df.rows ≠ [] := by
        intro h0
        rw [h0] at hne
        simp at hne
      obtain ⟨hrow, t, hsort, hmem, hmax⟩ := sortDesc_head_max
        (fun a b => valLE (rowKey dc a) (rowKey dc b))
        (fun a b => valLE_total _ _) (fun a b c => valLE_trans _ _ _)
        (df.rows.filter (userMatch uc username)) hne
      rcases hci : row_to_card_info hrow with e | ci
      · have hbad := hok hrow hmem
        rw [hci] at hbad
        simp [Except.isOk, Except.toBool] at hbad
      · refine ⟨hrow, ci, hmem, hmax, hci, ?_⟩
        simp [get_latest_card_by_user, glcbuBody, hp, hfetch, h0, huc, hne, hdc,
          sort_values_desc, hsort, hci, catchAll, Except.map]

/-- Witness for C4: `"ALICE"` matches rows of `"Alice"` and `"alice"` in
the stub project, and the later row is returned. -/
theorem C4_latest_by_user_witness :
    ∃ r ci, r ∈ dfW.rows.filter (userMatch "user_name" "ALICE")
      ∧ (∀ r' ∈ dfW.rows.filter (userMatch "user_name" "ALICE"),
           valLE (rowKey "date_of_creation" r') (rowKey "date_of_creation" r) = true)
      ∧ row_to_card_info r = .ok ci
      ∧ get_latest_card_by_user srcW initState "ALICE" (some "p") = (.ok (some ci), initState) :=
  (((C4_latest_by_user srcW initState "ALICE" "p" dfW (by decide) rfl).2.2 "user_name" rfl).2
    "date_of_creation" rfl (by decide) (by decide) (by decide))

/-! ## C10 — whitespace-only username in the search handler -/

/-- The parts of the project-path response that do not depend on the
username context value. -/
theorem searchProjectPath_obs (src : PadSource) (st : ServiceState) (project : String)
    (u1 u2 : Option String) :
    ((searchProjectPath src st project u1).1.map SearchResult.card =
       (searchProjectPath src st project u2).1.map SearchResult.card)
  ∧ ((searchProjectPath src st project u1).1.map SearchResult.error =
       (searchProjectPath src st project u2).1.map SearchResult.error)
  ∧ ((searchProjectPath src st project u1).1.map SearchResult.recent =
       (searchProjectPath src st project u2).1.map SearchResult.recent)
  ∧ (searchProjectPath src st project u1).2 = (searchProjectPath src st project u2).2 := by
  unfold searchProjectPath searchRender
  rcases hg : get_latest_card_in_project src st project with ⟨r, st1⟩
  cases r with
  | error e => exact ⟨rfl, rfl, rfl, rfl⟩
  | ok card =>
    dsimp only
    rcases hr : get_recent_cards_in_project src st1 project 3 with ⟨r2, st2⟩
    cases r2 with
    | error e => exact ⟨rfl, rfl, rfl, rfl⟩
    | ok recent => exact ⟨rfl, rfl, rfl, rfl⟩

/-- On the project path, a response without a card carries the
project-only error message. -/
theorem searchProjectPath_error_msg (src : PadSource) (st : ServiceState) (project : String)
    (uname : Option String) :
    ∀ res, (searchProjectPath src st project uname).1 = .ok res → res.card = none →
      res.error = some ("No cards found in project \x27" ++ project ++ "\x27") := by
  intro res hres hcard
  unfold searchProjectPath searchRender at hres
  rcases hg : get_latest_card_in_project src st project with ⟨r, st1⟩
  rw [hg] at hres
  cases r with
  | error e => simp at hres
  | ok card =>
    dsimp only at hres
    rcases hr : get_recent_cards_in_project src st1 project 3 with ⟨r2, st2⟩
    rw [hr] at hres
    cases r2 with
    | error e => simp at hres
    | ok recent =>
      simp at hres
      rw [← hres] at hcard ⊢
      simp at hcard
      simp [hcard]

/-- C10: a `/search` request whose username is absent or consists only of
whitespace takes the latest-card-in-project path: the returned card, error,
recent list and resulting state all equal the no-username call's, and on no
result the error is the project-only message. -/
theorem C10_search_whitespace (src : PadSource) (st : ServiceState) (project u : String)
    (h : pyStrip u = "") :
    ((search src st project (some u)).1.map SearchResult.card =
       (search src st project none).1.map SearchResult.card)
  ∧ ((search src st project (some u)).1.map SearchResult.error =
       (search src st project none).1.map SearchResult.error)
  ∧ ((search src st project (some u)).1.map SearchResult.recent =
       (search src st project none).1.map SearchResult.recent)
  ∧ (search src st project (some u)).2 = (search src st project none).2
  ∧ (∀ res, (search src st project (some u)).1 = .ok res → res.card = none →
       res.error = some ("No cards found in project \x27" ++ project ++ "\x27")) := by
  have hnone : search src st project none = searchProjectPath src st project none := rfl
  by_cases hu : u = ""
  · subst hu
    have hsome : search src st project (some "") = searchProjectPath src st project none := rfl
    rw [hsome, hnone]
    exact ⟨rfl, rfl, rfl, rfl, searchProjectPath_error_msg src st project none⟩
  · have hsome : search src st project (some u) = searchProjectPath src st project (some "") := by
      simp [search, hu, h]
    rw [hsome, hnone]
    obtain ⟨h1, h2, h3, h4⟩ := searchProjectPath_obs src st project (some "") none
    exact ⟨h1, h2, h3, h4, searchProjectPath_error_msg src st project (some "")⟩

/-- Witness for C10 at the single-space username on the stub source. -/
theorem C10_search_whitespace_witness :
    ((search srcW initState "p" (some " ")).1.map SearchResult.card =
       (search srcW initState "p" none).1.map SearchResult.card)
  ∧ ((search srcW initState "p" (some " ")).1.map SearchResult.error =
       (search srcW initState "p" none).1.map SearchResult.error)
  ∧ ((search srcW initState "p" (some " ")).1.map SearchResult.recent =
       (search srcW initState "p" none).1.map SearchResult.recent)
  ∧ (search srcW initState "p" (some " ")).2 = (search srcW initState "p" none).2
  ∧ (∀ res, (search srcW initState "p" (some " ")).1 = .ok res → res.card = none →
       res.error = some ("No cards found in project \x27p\x27")) := by
  have h := C10_search_whitespace srcW initState "p" " " (by decide)
  exact h

end PadChecker
